import Mathlib

/-!
Verification of the genesis M68K effective-address resolution engine
(`src/main.rs`): register file, micro-instruction semantics, the
addressing-mode translator `load_effaddr`, and the addressing-mode decoder.

Machine integers are embedded as `Nat` (for `u32`/`u8` storage, with
explicit `% 2^32` / `% 2^8` where the Rust types wrap or truncate) and as
`Int` for the signed `i32`/`i16` fields carried by descriptors; the
`as u32` reinterpretation of a signed value is `(x % 2^32).toNat`.
-/

namespace Genesis

/-- Operand sizes (`enum Size` in the source). -/
inductive Size
  | Byte
  | Word
  | Long
deriving DecidableEq, Repr

/-- Bit-shift factor used to scale an index register (`Size::shift`). -/
def Size.shift : Size → Nat
  | .Byte => 0
  | .Word => 1
  | .Long => 2

/-- Byte count of an operand (`Size::value`, an `i32` in the source). -/
def Size.value : Size → Int
  | .Byte => 1
  | .Word => 2
  | .Long => 4

/-- Operand references (`enum Reg`). Data/address register indices are
`Fin 8` (the source indexes `[u32; 8]` arrays; in-range indices are a
stated invariant), scratch-bank indices are `Fin 11` (the source array is
`[u32; NB_INTERNAL_REGS + 3]` with `NB_INTERNAL_REGS = 8`). An immediate
carries its `i32` literal. -/
inductive Reg
  | D (r : Fin 8)
  | A (r : Fin 8)
  | PC
  | CCR
  | InTmp (r : Fin 11)
  | In0
  | In1
  | IOBuffer
  | Immediate (x : Int)
deriving DecidableEq, Repr

/-- Micro-instructions (`enum MicroI`). -/
inductive MicroI
  | Zero (r : Reg)
  | Set (r : Reg) (x : Nat)
  | Mov (dst src : Reg)
  | Add (r x : Reg)
  | Scale (r : Reg) (s : Size)
  | RequestMem (addr : Reg)
deriving DecidableEq, Repr

/-- Result of executing one micro-instruction (`enum NextAction`). -/
inductive NextAction
  | Next
  | MemRequest (addr : Nat)
deriving DecidableEq, Repr

/-- The machine state (`struct M68K`): eight data registers, eight address
registers, program counter, condition-code byte, the scratch bank
(slot 8 = `In0`, slot 9 = `In1`, slot 10 = `IOBuffer`), and the pending
micro-instruction queue. -/
structure M68K where
  data_r : Fin 8 → Nat
  addr_r : Fin 8 → Nat
  pc : Nat
  ccr : Nat
  intern_r : Fin 11 → Nat
  instrs : List MicroI

/-- Register-file read (`M68K::read_reg`). Reading the condition-code
byte zero-extends; reading an immediate reinterprets the `i32` literal as
`u32`. -/
def M68K.read_reg (s : M68K) : Reg → Nat
  | .D r => s.data_r r
  | .A r => s.addr_r r
  | .PC => s.pc
  | .CCR => s.ccr
  | .InTmp r => s.intern_r r
  | .In0 => s.intern_r 8
  | .In1 => s.intern_r 9
  | .IOBuffer => s.intern_r 10
  | .Immediate x => (x % (2 ^ 32 : Int)).toNat

/-- Register-file write (`M68K::write_reg`). Writing the condition-code
register truncates to 8 bits (`x as u8`); writing through an immediate
reference is the source's `unreachable!()` panic, embedded as `none`. -/
def M68K.write_reg (s : M68K) : Reg → Nat → Option M68K
  | .D r, x => some { s with data_r := Function.update s.data_r r x }
  | .A r, x => some { s with addr_r := Function.update s.addr_r r x }
  | .PC, x => some { s with pc := x }
  | .CCR, x => some { s with ccr := x % 2 ^ 8 }
  | .InTmp r, x => some { s with intern_r := Function.update s.intern_r r x }
  | .In0, x => some { s with intern_r := Function.update s.intern_r 8 x }
  | .In1, x => some { s with intern_r := Function.update s.intern_r 9 x }
  | .IOBuffer, x => some { s with intern_r := Function.update s.intern_r 10 x }
  | .Immediate _, _ => none

/-- Single-step micro-instruction semantics (`M68K::exec`). `u32`
arithmetic wraps modulo `2^32`; a failing write (immediate destination)
propagates as `none`. -/
def M68K.exec (s : M68K) : MicroI → Option (M68K × NextAction)
  | .Zero r => (s.write_reg r 0).map (fun t => (t, .Next))
  | .Set r x => (s.write_reg r x).map (fun t => (t, .Next))
  | .Mov dst src => (s.write_reg dst (s.read_reg src)).map (fun t => (t, .Next))
  | .Add r x =>
      (s.write_reg r ((s.read_reg r + s.read_reg x) % 2 ^ 32)).map (fun t => (t, .Next))
  | .Scale r sz =>
      (s.write_reg r ((s.read_reg r <<< sz.shift) % 2 ^ 32)).map (fun t => (t, .Next))
  | .RequestMem a => some (s, .MemRequest (s.read_reg a))

/-- Modelled from the spec: the Executor drain loop of section 4.2 is not
implemented in `src/main.rs` (only the per-instruction `M68K::exec` step
is); the spec states the queue is drained strictly in order and that on a
`MemRequest` the external memory subsystem deposits the fetched 32-bit
value into the `IOBuffer` scratch register before execution resumes.
`mem` is the memory subsystem (address to fetched value, truncated to 32
bits); the result is the final state paired with the ordered list of
requested addresses, or `none` if a step panics. -/
def runWith (mem : Nat → Nat) : M68K → List MicroI → Option (M68K × List Nat)
  | s, [] => some (s, [])
  | s, mi :: rest =>
    match s.exec mi with
    | none => none
    | some (s1, .Next) => runWith mem s1 rest
    | some (s1, .MemRequest a) =>
      match s1.write_reg .IOBuffer (mem a % 2 ^ 32) with
      | none => none
      | some s2 => (runWith mem s2 rest).map (fun p => (p.1, a :: p.2))

/-- The ordered list of addresses requested while draining a queue. -/
def runAddrs (mem : Nat → Nat) (s : M68K) (prog : List MicroI) : Option (List Nat) :=
  (runWith mem s prog).map (fun p => p.2)

/-- Reinterpretation of a `u32` bit pattern as an `i32` (Rust `as i32`). -/
def u32_as_i32 (v : Nat) : Int :=
  if v % 2 ^ 32 < 2 ^ 31 then ((v % 2 ^ 32 : Nat) : Int) else ((v % 2 ^ 32 : Nat) : Int) - 2 ^ 32

/-- Addressing-mode descriptors (`enum EffAddr`). Signed displacement
fields (`i16`/`i32` in the source) are `Int`; `AbsLong` carries the two
`u16` halves of the absolute address as in the source. -/
inductive EffAddr
  | DataReg (r : Fin 8)
  | AddrReg (r : Fin 8)
  | Addr (r : Fin 8)
  | PostInc (r : Fin 8) (s : Size)
  | PreDec (r : Fin 8) (s : Size)
  | AddrDisp (r : Fin 8) (d : Int)
  | AddrIdx (r : Fin 8) (idx : Reg) (d : Int) (s : Size)
  | AddrIndPostIdx (r : Fin 8) (d : Int) (idx : Reg) (s : Size) (od : Int)
  | AddrIndPreIdx (r : Fin 8) (d : Int) (idx : Reg) (s : Size) (od : Int)
  | PCIndDisp (d : Int)
  | PCIndIdx (d : Int) (idx : Reg) (s : Size)
  | PCIndPostIdx (d : Int) (idx : Reg) (s : Size) (od : Int)
  | PCIndPreIdx (d : Int) (idx : Reg) (s : Size) (od : Int)
  | AbsShort (addr : Int)
  | AbsLong (hi lo : Nat)
  | Immediate (addr : Nat)

/-- Queue append (`M68K::add_instr`). -/
def M68K.add_instr (s : M68K) (mi : MicroI) : M68K :=
  { s with instrs := s.instrs ++ [mi] }

/-- The translator (`M68K::load_effaddr`): per-mode micro-instruction
sequences appended to the pending queue via `add_instr`, mirroring the
source's push order instruction by instruction. -/
def M68K.load_effaddr (s : M68K) : EffAddr → M68K
  | .DataReg r => s.add_instr (.Mov .In0 (.D r))
  | .AddrReg r => s.add_instr (.Mov .In0 (.A r))
  | .Addr r =>
      ((s.add_instr (.RequestMem (.A r))).add_instr (.Mov .In0 .IOBuffer))
  | .PostInc r sz =>
      (((s.add_instr (.RequestMem (.A r))).add_instr
        (.Mov .In0 .IOBuffer)).add_instr (.Add (.A r) (.Immediate sz.value)))
  | .PreDec r sz =>
      (((s.add_instr (.Add (.A r) (.Immediate (-sz.value)))).add_instr
        (.RequestMem (.A r))).add_instr (.Mov .In0 .IOBuffer))
  | .AddrDisp r d =>
      ((((s.add_instr (.Mov .In0 (.A r))).add_instr
        (.Add .In0 (.Immediate d))).add_instr
        (.RequestMem .In0)).add_instr (.Mov .In0 .IOBuffer))
  | .AddrIdx r idx d sz =>
      (((((((s.add_instr (.Mov .In0 (.A r))).add_instr
        (.Add .In0 (.Immediate d))).add_instr
        (.Mov .In1 idx)).add_instr
        (.Scale .In1 sz)).add_instr
        (.Add .In0 .In1)).add_instr
        (.RequestMem .In0)).add_instr (.Mov .In0 .IOBuffer))
  | .AddrIndPostIdx r d idx sz od =>
      ((((((((((s.add_instr (.Mov .In0 (.A r))).add_instr
        (.Add .In0 (.Immediate d))).add_instr
        (.RequestMem .In0)).add_instr
        (.Mov .In0 .IOBuffer)).add_instr
        (.Mov .In1 idx)).add_instr
        (.Scale .In1 sz)).add_instr
        (.Add .In0 .In1)).add_instr
        (.Add .In0 (.Immediate od))).add_instr
        (.RequestMem .In0)).add_instr (.Mov .In0 .IOBuffer))
  | .AddrIndPreIdx r d idx sz od =>
      ((((((((((s.add_instr (.Mov .In0 (.A r))).add_instr
        (.Add .In0 (.Immediate d))).add_instr
        (.Mov .In1 idx)).add_instr
        (.Scale .In1 sz)).add_instr
        (.Add .In0 .In1)).add_instr
        (.RequestMem .In0)).add_instr
        (.Mov .In0 .IOBuffer)).add_instr
        (.Add .In0 (.Immediate od))).add_instr
        (.RequestMem .In0)).add_instr (.Mov .In0 .IOBuffer))
  | .PCIndDisp d =>
      ((((s.add_instr (.Mov .In0 .PC)).add_instr
        (.Add .In0 (.Immediate d))).add_instr
        (.RequestMem .In0)).add_instr (.Mov .In0 .IOBuffer))
  | .PCIndIdx d idx sz =>
      (((((((s.add_instr (.Mov .In0 .PC)).add_instr
        (.Add .In0 (.Immediate d))).add_instr
        (.Mov .In1 idx)).add_instr
        (.Scale .In1 sz)).add_instr
        (.Add .In0 .In1)).add_instr
        (.RequestMem .In0)).add_instr (.Mov .In0 .IOBuffer))
  | .PCIndPostIdx d idx sz od =>
      ((((((((((s.add_instr (.Mov .In0 .PC)).add_instr
        (.Add .In0 (.Immediate d))).add_instr
        (.RequestMem .In0)).add_instr
        (.Mov .In0 .IOBuffer)).add_instr
        (.Mov .In1 idx)).add_instr
        (.Scale .In1 sz)).add_instr
        (.Add .In0 .In1)).add_instr
        (.Add .In0 (.Immediate od))).add_instr
        (.RequestMem .In0)).add_instr (.Mov .In0 .IOBuffer))
  | .PCIndPreIdx d idx sz od =>
      ((((((((((s.add_instr (.Mov .In0 .PC)).add_instr
        (.Add .In0 (.Immediate d))).add_instr
        (.Mov .In1 idx)).add_instr
        (.Scale .In1 sz)).add_instr
        (.Add .In0 .In1)).add_instr
        (.RequestMem .In0)).add_instr
        (.Mov .In0 .IOBuffer)).add_instr
        (.Add .In0 (.Immediate od))).add_instr
        (.RequestMem .In0)).add_instr (.Mov .In0 .IOBuffer))
  | .AbsShort addr =>
      ((s.add_instr (.RequestMem (.Immediate addr))).add_instr (.Mov .In0 .IOBuffer))
  | .AbsLong hi lo =>
      ((s.add_instr
        (.RequestMem (.Immediate (u32_as_i32 ((hi <<< 16) ||| lo))))).add_instr
        (.Mov .In0 .IOBuffer))
  | .Immediate addr =>
      ((s.add_instr
        (.RequestMem (.Immediate (u32_as_i32 addr)))).add_instr (.Mov .In0 .IOBuffer))

/-- The micro-instruction sequence a descriptor lowers to, as a plain
list (same per-mode sequences as `M68K.load_effaddr`, detached from the
queue it is appended to). -/
def lower : EffAddr → List MicroI
  | .DataReg r => [.Mov .In0 (.D r)]
  | .AddrReg r => [.Mov .In0 (.A r)]
  | .Addr r => [.RequestMem (.A r), .Mov .In0 .IOBuffer]
  | .PostInc r sz =>
      [.RequestMem (.A r), .Mov .In0 .IOBuffer, .Add (.A r) (.Immediate sz.value)]
  | .PreDec r sz =>
      [.Add (.A r) (.Immediate (-sz.value)), .RequestMem (.A r), .Mov .In0 .IOBuffer]
  | .AddrDisp r d =>
      [.Mov .In0 (.A r), .Add .In0 (.Immediate d), .RequestMem .In0, .Mov .In0 .IOBuffer]
  | .AddrIdx r idx d sz =>
      [.Mov .In0 (.A r), .Add .In0 (.Immediate d), .Mov .In1 idx, .Scale .In1 sz,
       .Add .In0 .In1, .RequestMem .In0, .Mov .In0 .IOBuffer]
  | .AddrIndPostIdx r d idx sz od =>
      [.Mov .In0 (.A r), .Add .In0 (.Immediate d), .RequestMem .In0, .Mov .In0 .IOBuffer,
       .Mov .In1 idx, .Scale .In1 sz, .Add .In0 .In1, .Add .In0 (.Immediate od),
       .RequestMem .In0, .Mov .In0 .IOBuffer]
  | .AddrIndPreIdx r d idx sz od =>
      [.Mov .In0 (.A r), .Add .In0 (.Immediate d), .Mov .In1 idx, .Scale .In1 sz,
       .Add .In0 .In1, .RequestMem .In0, .Mov .In0 .IOBuffer, .Add .In0 (.Immediate od),
       .RequestMem .In0, .Mov .In0 .IOBuffer]
  | .PCIndDisp d =>
      [.Mov .In0 .PC, .Add .In0 (.Immediate d), .RequestMem .In0, .Mov .In0 .IOBuffer]
  | .PCIndIdx d idx sz =>
      [.Mov .In0 .PC, .Add .In0 (.Immediate d), .Mov .In1 idx, .Scale .In1 sz,
       .Add .In0 .In1, .RequestMem .In0, .Mov .In0 .IOBuffer]
  | .PCIndPostIdx d idx sz od =>
      [.Mov .In0 .PC, .Add .In0 (.Immediate d), .RequestMem .In0, .Mov .In0 .IOBuffer,
       .Mov .In1 idx, .Scale .In1 sz, .Add .In0 .In1, .Add .In0 (.Immediate od),
       .RequestMem .In0, .Mov .In0 .IOBuffer]
  | .PCIndPreIdx d idx sz od =>
      [.Mov .In0 .PC, .Add .In0 (.Immediate d), .Mov .In1 idx, .Scale .In1 sz,
       .Add .In0 .In1, .RequestMem .In0, .Mov .In0 .IOBuffer, .Add .In0 (.Immediate od),
       .RequestMem .In0, .Mov .In0 .IOBuffer]
  | .AbsShort addr => [.RequestMem (.Immediate addr), .Mov .In0 .IOBuffer]
  | .AbsLong hi lo =>
      [.RequestMem (.Immediate (u32_as_i32 ((hi <<< 16) ||| lo))), .Mov .In0 .IOBuffer]
  | .Immediate addr => [.RequestMem (.Immediate (u32_as_i32 addr)), .Mov .In0 .IOBuffer]

/-- The addressing-mode enumeration (`enum AddrMode`), discriminants 0..11. -/
inductive AddrMode
  | DataReg
  | AddrReg
  | Addr
  | AddrPostInc
  | AddrPreDec
  | AddrDisp
  | AddrIdx
  | PCDisp
  | PCIdx
  | AbsShort
  | AbsLong
  | Imm
deriving DecidableEq, Repr

/-- The source's `impl From<u8> for AddrMode`, an unchecked
`std::mem::transmute` of the byte into the 12-variant enum. For inputs
0..=11 this yields the variant with that discriminant; for 12.. the
transmute is undefined behavior (no `AddrMode` bit pattern exists),
embedded here as `none`. -/
def AddrMode.fromU8 : Nat → Option AddrMode
  | 0 => some .DataReg
  | 1 => some .AddrReg
  | 2 => some .Addr
  | 3 => some .AddrPostInc
  | 4 => some .AddrPreDec
  | 5 => some .AddrDisp
  | 6 => some .AddrIdx
  | 7 => some .PCDisp
  | 8 => some .PCIdx
  | 9 => some .AbsShort
  | 10 => some .AbsLong
  | 11 => some .Imm
  | _ => none

/-- The decoder (`fn decode`): mask the low six opcode bits and
reinterpret them as an `AddrMode`. -/
def decode (opcode : Nat) : Option AddrMode :=
  AddrMode.fromU8 (opcode &&& 63)

/-- The destination register a micro-instruction writes through
`write_reg`, if any (`RequestMem` only reads). -/
def MicroI.writeDest : MicroI → Option Reg
  | .Zero r => some r
  | .Set r _ => some r
  | .Mov dst _ => some dst
  | .Add r _ => some r
  | .Scale r _ => some r
  | .RequestMem _ => none

/-- Whether an operand reference is an immediate literal. -/
def Reg.isImm : Reg → Bool
  | .Immediate _ => true
  | _ => false

/-- Whether a micro-instruction is a memory-fetch request. -/
def MicroI.isFetch : MicroI → Bool
  | .RequestMem _ => true
  | _ => false

/-- The storage location an operand reference denotes (`none` for an
immediate literal). `In0`, `In1`, `IOBuffer` alias scratch-bank slots
8, 9, 10, exactly as `read_reg`/`write_reg` index them. -/
inductive Loc
  | D (r : Fin 8)
  | A (r : Fin 8)
  | PC
  | CCR
  | Intern (r : Fin 11)
deriving DecidableEq, Repr

/-- Location of an operand reference. -/
def Reg.loc : Reg → Option Loc
  | .D r => some (.D r)
  | .A r => some (.A r)
  | .PC => some .PC
  | .CCR => some .CCR
  | .InTmp r => some (.Intern r)
  | .In0 => some (.Intern 8)
  | .In1 => some (.Intern 9)
  | .IOBuffer => some (.Intern 10)
  | .Immediate _ => none

/-- Whether every `RequestMem` in a sequence is immediately followed by
`Mov(In0, IOBuffer)`. -/
def fetchThenCopy : List MicroI → Bool
  | [] => true
  | .RequestMem _ :: rest =>
    match rest with
    | .Mov .In0 .IOBuffer :: _ => fetchThenCopy rest
    | _ => false
  | _ :: rest => fetchThenCopy rest

/-- A register file holding zero everywhere, with an empty queue. -/
def zeroRegs : M68K :=
  { data_r := fun _ => 0, addr_r := fun _ => 0, pc := 0, ccr := 0,
    intern_r := fun _ => 0, instrs := [] }

/-- A register file with `D0 = 3` (for the scale examples). -/
def s3 : M68K := { zeroRegs with data_r := Function.update zeroRegs.data_r 0 3 }

/-- A register file with `A2 = 0x2000` (post-increment example). -/
def sA2 : M68K := { zeroRegs with addr_r := Function.update zeroRegs.addr_r 2 0x2000 }

/-- A register file with `A5 = 0x3000` (pre-decrement example). -/
def sA5 : M68K := { zeroRegs with addr_r := Function.update zeroRegs.addr_r 5 0x3000 }

/-- A register file with `D1 = 1` (memory-indirect example). -/
def sD1 : M68K := { zeroRegs with data_r := Function.update zeroRegs.data_r 1 1 }

/-- A register file with `D1 = 7` (add example). -/
def sOne : M68K := { zeroRegs with data_r := Function.update zeroRegs.data_r 1 7 }

/-- The state `sOne` after `Add(D0, D1)`: `D0 = 7`. -/
def sOne' : M68K := { sOne with data_r := Function.update sOne.data_r 0 7 }

/-- Writing one register leaves every distinct storage location
unchanged, aliasing of the scratch bank (`InTmp 8` = `In0`, etc.)
accounted for by `Reg.loc`. -/
theorem write_read_frame (s s' : M68K) (r y : Reg) (v : Nat)
    (hw : s.write_reg r v = some s') (hy : y.loc ≠ r.loc) :
    s'.read_reg y = s.read_reg y := by
  cases r <;> simp [M68K.write_reg] at hw <;> subst hw <;> cases y <;>
    simp_all [M68K.read_reg, Reg.loc, Function.update_apply]

/-- Claim C1: executing `Add(r, x)` performs exactly the register write
`r := (read r + read x) % 2^32` (unsigned 32-bit wraparound addition),
and any reference `y` denoting a storage location distinct from `r`
(in particular `x` itself when distinct) reads the same value afterwards
as before — the right operand is never written. -/
theorem add_wrapping_accumulate :
    (∀ (s : M68K) (r x : Reg),
      s.exec (.Add r x) =
        (s.write_reg r ((s.read_reg r + s.read_reg x) % 2 ^ 32)).map
          (fun t => (t, NextAction.Next))) ∧
    (∀ (s s' : M68K) (r x y : Reg),
      s.write_reg r ((s.read_reg r + s.read_reg x) % 2 ^ 32) = some s' →
      y.loc ≠ r.loc → s'.read_reg y = s.read_reg y) :=
  ⟨fun _ _ _ => rfl, fun s s' r _ y hw hy => write_read_frame s s' r y _ hw hy⟩

/-- Witness for C1 at `sOne` (`D1 = 7`): `Add(D0, D1)` writes `7` into
`D0` and leaves `D1` unchanged. -/
theorem add_wrapping_accumulate_witness :
    sOne.write_reg (.D 0) ((sOne.read_reg (.D 0) + sOne.read_reg (.D 1)) % 2 ^ 32) =
      some sOne' ∧
    sOne'.read_reg (.D 1) = sOne.read_reg (.D 1) :=
  ⟨rfl, add_wrapping_accumulate.2 sOne sOne' (.D 0) (.D 1) (.D 1) rfl (by decide)⟩

/-- Claim C2, counterexample: with `D1 = 0` as index (scaled index value
0), the memory-indirect post-indexed and pre-indexed lowerings issue
their first (intermediate) fetch at the same address `0`, refuting that
the intermediate fetch address differs for every choice of inputs. -/
theorem memIndirect_firstFetch_coincide :
    runAddrs (fun _ => 0) zeroRegs (lower (.AddrIndPostIdx 0 0 (.D 1) .Word 0)) =
      some [0, 0] ∧
    runAddrs (fun _ => 0) zeroRegs (lower (.AddrIndPreIdx 0 0 (.D 1) .Word 0)) =
      some [0, 0] := by
  decide

/-- Claim C2 (amended): both memory-indirect lowerings contain exactly
two `RequestMem` micro-instructions and issue exactly two fetches when
executed; the pre-indexed first fetch address is the post-indexed first
fetch address plus the scaled index value modulo `2^32`, so the two
differ exactly when the scaled index value is nonzero modulo `2^32`
(the index operand must not alias the scratch register `In0`, which the
lowering itself clobbers before reading the index). -/
theorem memIndirect_two_fetches (mem : Nat → Nat) (s : M68K) (r : Fin 8) (d : Int)
    (idx : Reg) (sz : Size) (od : Int)
    (hidx : idx.loc ≠ some (.Intern 8))
    (hnz : (s.read_reg idx <<< sz.shift) % 2 ^ 32 ≠ 0) :
    ((lower (.AddrIndPostIdx r d idx sz od)).filter (fun mi => mi.isFetch)).length = 2 ∧
    ((lower (.AddrIndPreIdx r d idx sz od)).filter (fun mi => mi.isFetch)).length = 2 ∧
    (runAddrs mem s (lower (.AddrIndPostIdx r d idx sz od))).map List.length = some 2 ∧
    (runAddrs mem s (lower (.AddrIndPreIdx r d idx sz od))).map List.length = some 2 ∧
    (runAddrs mem s (lower (.AddrIndPostIdx r d idx sz od))).map List.headI =
      some ((s.read_reg (.A r) + (d % (2 ^ 32 : Int)).toNat) % 2 ^ 32) ∧
    (runAddrs mem s (lower (.AddrIndPreIdx r d idx sz od))).map List.headI =
      some (((s.read_reg (.A r) + (d % (2 ^ 32 : Int)).toNat) % 2 ^ 32 +
             (s.read_reg idx <<< sz.shift) % 2 ^ 32) % 2 ^ 32) ∧
    ((s.read_reg (.A r) + (d % (2 ^ 32 : Int)).toNat) % 2 ^ 32 +
      (s.read_reg idx <<< sz.shift) % 2 ^ 32) % 2 ^ 32 ≠
      (s.read_reg (.A r) + (d % (2 ^ 32 : Int)).toNat) % 2 ^ 32 := by
  refine ⟨rfl, rfl, ?_, ?_, ?_, ?_, ?_⟩
  · simp [runAddrs, lower, runWith, M68K.exec, M68K.write_reg, M68K.read_reg,
      Function.update_noteq]
  · cases idx <;>
      simp_all [runAddrs, lower, runWith, M68K.exec, M68K.write_reg, M68K.read_reg,
        Reg.loc, Function.update_apply]
  · simp [runAddrs, lower, runWith, M68K.exec, M68K.write_reg, M68K.read_reg,
      Function.update_noteq]
  · cases idx <;>
      simp_all [runAddrs, lower, runWith, M68K.exec, M68K.write_reg, M68K.read_reg,
        Reg.loc, Function.update_apply]
  · generalize (s.read_reg idx <<< sz.shift) = K at hnz ⊢
    generalize (s.read_reg (.A r) + (d % (2 ^ 32 : Int)).toNat) = M
    omega

/-- Witness for C2 at `sD1` (`D1 = 1`, base `A0 = 0`, byte scale): the
post-indexed intermediate fetch is at `0`, the pre-indexed one at `1`. -/
theorem memIndirect_two_fetches_witness :
    ((lower (.AddrIndPostIdx 0 0 (.D 1) .Byte 0)).filter (fun mi => mi.isFetch)).length = 2 ∧
    ((lower (.AddrIndPreIdx 0 0 (.D 1) .Byte 0)).filter (fun mi => mi.isFetch)).length = 2 ∧
    (runAddrs (fun _ => 0) sD1 (lower (.AddrIndPostIdx 0 0 (.D 1) .Byte 0))).map
      List.length = some 2 ∧
    (runAddrs (fun _ => 0) sD1 (lower (.AddrIndPreIdx 0 0 (.D 1) .Byte 0))).map
      List.length = some 2 ∧
    (runAddrs (fun _ => 0) sD1 (lower (.AddrIndPostIdx 0 0 (.D 1) .Byte 0))).map
      List.headI = some 0 ∧
    (runAddrs (fun _ => 0) sD1 (lower (.AddrIndPreIdx 0 0 (.D 1) .Byte 0))).map
      List.headI = some 1 ∧
    (1 : Nat) ≠ 0 :=
  memIndirect_two_fetches (fun _ => 0) sD1 0 0 (.D 1) .Byte 0 (by decide) (by decide)

/-- Claim C3: the post-increment lowering fetches at the unmodified
address-register value and only afterwards adds the operand's byte size
to the address register; concretely, with operand size Word and
`A2 = 0x2000` the fetch goes to `0x2000` and `A2` ends at `0x2002`. -/
theorem postInc_fetch_before_increment :
    (∀ (mem : Nat → Nat) (s : M68K) (r : Fin 8) (sz : Size),
      (runWith mem s (lower (.PostInc r sz))).map (fun p => p.2) =
        some [s.read_reg (.A r)] ∧
      (runWith mem s (lower (.PostInc r sz))).map (fun p => p.1.addr_r r) =
        some ((s.read_reg (.A r) + sz.value.toNat) % 2 ^ 32)) ∧
    runAddrs (fun _ => 0) sA2 (lower (.PostInc 2 .Word)) = some [0x2000] ∧
    (runWith (fun _ => 0) sA2 (lower (.PostInc 2 .Word))).map (fun p => p.1.addr_r 2) =
      some 0x2002 := by
  refine ⟨fun mem s r sz => ?_, by decide, by decide⟩
  cases sz <;>
    simp [lower, runWith, M68K.exec, M68K.write_reg, M68K.read_reg, Size.value,
      Function.update_noteq]

/-- Claim C4: the pre-decrement lowering subtracts the operand's byte
size (as a wrapped `u32` immediate) from the address register before the
fetch, which then uses the updated value; concretely, with operand size
Long and `A5 = 0x3000` the fetch goes to `0x2FFC` and `A5` ends at
`0x2FFC`. -/
theorem preDec_decrement_before_fetch :
    (∀ (mem : Nat → Nat) (s : M68K) (r : Fin 8) (sz : Size),
      (runWith mem s (lower (.PreDec r sz))).map (fun p => p.2) =
        some [(s.read_reg (.A r) + ((-sz.value) % (2 ^ 32 : Int)).toNat) % 2 ^ 32] ∧
      (runWith mem s (lower (.PreDec r sz))).map (fun p => p.1.addr_r r) =
        some ((s.read_reg (.A r) + ((-sz.value) % (2 ^ 32 : Int)).toNat) % 2 ^ 32)) ∧
    runAddrs (fun _ => 0) sA5 (lower (.PreDec 5 .Long)) = some [0x2FFC] ∧
    (runWith (fun _ => 0) sA5 (lower (.PreDec 5 .Long))).map (fun p => p.1.addr_r 5) =
      some 0x2FFC := by
  refine ⟨fun mem s r sz => ?_, by decide, by decide⟩
  cases sz <;>
    simp [lower, runWith, M68K.exec, M68K.write_reg, M68K.read_reg,
      Function.update_noteq]

/-- Claim C5 (code bug evidence): the source decodes an addressing-mode
byte with an unchecked `transmute`, which is undefined behavior — not an
explicit decode error — for every masked pattern `12..63` that matches
no `AddrMode` variant (embedded as `none`); in-range patterns decode to
their variant. -/
theorem decode_reserved_is_undefined :
    decode 12 = none ∧
    (∀ op : Nat, 12 ≤ op &&& 63 → decode op = none) ∧
    decode 11 = some AddrMode.Imm ∧
    decode 0 = some AddrMode.DataReg := by
  refine ⟨rfl, fun op h => ?_, rfl, rfl⟩
  unfold decode
  obtain ⟨n, hn⟩ : ∃ n, op &&& 63 = n + 12 :=
    ⟨(op &&& 63) - 12, (Nat.sub_add_cancel h).symm⟩
  rw [hn]
  rfl

/-- Witness for C5 at opcode `77` (masked pattern `13`): decoding hits
the undefined branch. -/
theorem decode_reserved_is_undefined_witness :
    12 ≤ 77 &&& 63 ∧ decode 77 = none :=
  ⟨by decide, decode_reserved_is_undefined.2.1 77 (by decide)⟩

/-- Claim C6: writing through an immediate-literal reference is the
fatal `unreachable!()` branch (embedded as `none`), no micro-instruction
emitted by the translator for any descriptor has an immediate write
destination, and consequently executing any lowered sequence never
reaches that branch (the run always succeeds). -/
theorem immediate_write_fatal_unreachable :
    (∀ (s : M68K) (v : Int) (x : Nat), s.write_reg (.Immediate v) x = none) ∧
    (∀ ea : EffAddr,
      (lower ea).all (fun mi => mi.writeDest.all (fun r => !r.isImm)) = true) ∧
    (∀ (mem : Nat → Nat) (s : M68K) (ea : EffAddr),
      (runWith mem s (lower ea)).isSome = true) := by
  refine ⟨fun _ _ _ => rfl, fun ea => by cases ea <;> rfl, fun mem s ea => ?_⟩
  cases ea <;>
    simp [lower, runWith, M68K.exec, M68K.write_reg, M68K.read_reg]

/-- Claim C7: lowering a descriptor only appends the mode's fixed
micro-instruction sequence to the queue — the emitted sequence `lower ea`
does not depend on the register file, and every register (data, address,
PC, CCR, scratch) is left unchanged by the translator itself. -/
theorem load_effaddr_pure_append :
    ∀ (s : M68K) (ea : EffAddr), s.load_effaddr ea = { s with instrs := s.instrs ++ lower ea } := by
  intro s ea
  cases ea <;> simp [M68K.load_effaddr, M68K.add_instr, lower]

/-- Claim C8: in the sequence emitted for every descriptor, each
`RequestMem` is immediately followed by `Mov(In0, IOBuffer)`. -/
theorem fetch_immediately_copied :
    ∀ ea : EffAddr, fetchThenCopy (lower ea) = true := by
  intro ea
  cases ea <;> rfl

/-- Claim C9: `Scale(r, size)` performs exactly the register write
`r := (read r <<< size.shift) % 2^32` with shift amounts 0, 1, 2 for
Byte, Word, Long; starting from `D0 = 3` the scaled results are 3, 6
and 12. -/
theorem scale_shift_semantics :
    (Size.Byte.shift = 0 ∧ Size.Word.shift = 1 ∧ Size.Long.shift = 2) ∧
    (∀ (s : M68K) (r : Reg) (sz : Size),
      s.exec (.Scale r sz) =
        (s.write_reg r ((s.read_reg r <<< sz.shift) % 2 ^ 32)).map
          (fun t => (t, NextAction.Next))) ∧
    ((s3.exec (.Scale (.D 0) .Byte)).map (fun p => p.1.read_reg (.D 0)) = some 3 ∧
     (s3.exec (.Scale (.D 0) .Word)).map (fun p => p.1.read_reg (.D 0)) = some 6 ∧
     (s3.exec (.Scale (.D 0) .Long)).map (fun p => p.1.read_reg (.D 0)) = some 12) :=
  ⟨⟨rfl, rfl, rfl⟩, fun _ _ _ => rfl, by decide⟩

/-- Claim C10: the absolute-short lowering requests the 16-bit address
sign-extended to 32 bits: a negative-as-`i16` bit pattern `p` in
`0x8000..0xFFFF` (value `p - 2^16`) requests `0xFFFF0000 + p`, whose
upper 16 bits are all set; a pattern below `0x8000` requests its
zero-extension; pattern `0xFFFF` requests `0xFFFFFFFF`. -/
theorem absShort_sign_extended :
    (∀ (mem : Nat → Nat) (s : M68K) (p : Nat), 2 ^ 15 ≤ p → p < 2 ^ 16 →
      runAddrs mem s (lower (.AbsShort ((p : Int) - 2 ^ 16))) =
        some [2 ^ 32 - 2 ^ 16 + p] ∧
      (2 ^ 32 - 2 ^ 16 + p) >>> 16 = 2 ^ 16 - 1) ∧
    (∀ (mem : Nat → Nat) (s : M68K) (p : Nat), p < 2 ^ 15 →
      runAddrs mem s (lower (.AbsShort (p : Int))) = some [p]) ∧
    (∀ (mem : Nat → Nat) (s : M68K),
      runAddrs mem s (lower (.AbsShort ((0xFFFF : Int) - 2 ^ 16))) =
        some [0xFFFFFFFF]) := by
  refine ⟨fun mem s p h1 h2 => ⟨?_, ?_⟩, fun mem s p h2 => ?_, fun mem s => ?_⟩
  · simp [runAddrs, lower, runWith, M68K.exec, M68K.write_reg, M68K.read_reg]
    omega
  · rw [Nat.shiftRight_eq_div_pow]
    omega
  · simp [runAddrs, lower, runWith, M68K.exec, M68K.write_reg, M68K.read_reg]
    omega
  · simp [runAddrs, lower, runWith, M68K.exec, M68K.write_reg, M68K.read_reg]

/-- Witness for C10 at patterns `0x8000` (negative, sign-extends to
`0xFFFF8000`) and `5` (zero-extends). -/
theorem absShort_sign_extended_witness :
    (runAddrs (fun _ => 0) zeroRegs (lower (.AbsShort (((0x8000 : Nat) : Int) - 2 ^ 16))) =
      some [2 ^ 32 - 2 ^ 16 + 0x8000]) ∧
    (runAddrs (fun _ => 0) zeroRegs (lower (.AbsShort ((5 : Nat) : Int))) = some [5]) :=
  ⟨(absShort_sign_extended.1 (fun _ => 0) zeroRegs 0x8000 (by decide) (by decide)).1,
   absShort_sign_extended.2.1 (fun _ => 0) zeroRegs 5 (by decide)⟩

end Genesis

